import Mathlib

/-!
Verification of the WardenApp pbxproj-patching scripts.

The development shallowly embeds the three manifest-editing Python scripts
(`add_files_auto.py`, `add_to_xcode_v2.py`, `fix_file_paths.py`) as pure
functions over `List Char`.  File-system effects (read, backup copy,
in-place write) are recorded as explicit event traces, and the stream of
random identifiers produced by `uuid.uuid4` is modelled as a function
`Nat → List Char` consumed in program order.
-/

namespace Warden

set_option maxRecDepth 200000

/-! ### Python string primitives

`pyClamp` normalises an index the way Python normalises both a slice bound
and the `start` argument of `str.find`: a negative index counts from the
end (clamped at 0), a positive one is clamped at the length. -/

def pyClamp (len : Nat) (i : Int) : Nat :=
  if i < 0 then ((len : Int) + i).toNat else min i.toNat len

/-- Tail-recursive list length (evaluates iteratively on long texts; the
match on `n + 1` keeps the accumulator a numeral during reduction — its
zero arm is unreachable). -/
def lenAux : Nat → List Char → Nat
  | n, [] => n
  | n, _ :: cs =>
    match n + 1 with
    | 0 => 0
    | m + 1 => lenAux (m + 1) cs

def lenTR (s : List Char) : Nat := lenAux 0 s

/-- `s[:i]` with Python slice semantics (`i` may be negative, e.g. `-1`). -/
def pyTake (s : List Char) (i : Int) : List Char :=
  s.take (pyClamp (lenTR s) i)

/-- `s[i:]` with Python slice semantics. -/
def pyDrop (s : List Char) (i : Int) : List Char :=
  s.drop (pyClamp (lenTR s) i)

/-- Tail-recursive scan for the leftmost position at which `needle`
starts, counting from `k` (the match on `k + 1` keeps the position a
numeral during reduction — its zero arm is unreachable). -/
def findIdxFromAux (needle : List Char) : Nat → List Char → Option Nat
  | k, [] => if needle.isPrefixOf [] then some k else none
  | k, c :: cs =>
    if needle.isPrefixOf (c :: cs) then some k
    else
      match k + 1 with
      | 0 => none
      | m + 1 => findIdxFromAux needle (m + 1) cs

/-- Index of the leftmost occurrence of `needle` in `hay`, if any. -/
def findIdxFrom (needle hay : List Char) : Option Nat :=
  findIdxFromAux needle 0 hay

/-- Python `hay.find(needle, start)`: `-1` when absent, else the absolute
index of the leftmost occurrence at or after the normalised `start`. -/
def pyFind (hay needle : List Char) (start : Int) : Int :=
  match findIdxFrom needle (hay.drop (pyClamp (lenTR hay) start)) with
  | some j => ((pyClamp (lenTR hay) start : Nat) : Int) + j
  | none => -1

/-- `needle in hay` as a computable substring test. -/
def containsTok (hay needle : List Char) : Bool :=
  (findIdxFrom needle hay).isSome

/-- Tail-recursive occurrence counter. -/
def countOccAux (pat : List Char) : Nat → List Char → Nat
  | acc, [] => acc
  | acc, c :: cs =>
    if pat.isPrefixOf (c :: cs) then countOccAux pat (acc + 1) cs
    else countOccAux pat acc cs

/-- Number of positions of `s` at which `pat` starts. -/
def countOcc (pat s : List Char) : Nat := countOccAux pat 0 s

/-- Resumable occurrence scan: advance the state `(count, rest)` by at
most `k` characters.  Composing several bounded passes keeps each
reduction chain short when evaluating over long computed texts. -/
def countStep (pat : List Char) : Nat → Nat × List Char → Nat × List Char
  | 0, st => st
  | _ + 1, (acc, []) => (acc, [])
  | k + 1, (acc, c :: cs) =>
    if pat.isPrefixOf (c :: cs) then countStep pat k (acc + 1, cs)
    else countStep pat k (acc, cs)

/-- Three chained 1500-character passes (enough for texts of length at
most 4500). -/
def countOcc3k (pat s : List Char) : Nat × List Char :=
  countStep pat 1500 (countStep pat 1500 (countStep pat 1500 (0, s)))

/-- `os.path.basename`: everything after the last `/`. -/
def basename (p : List Char) : List Char :=
  p.foldl (fun acc c => if c = '/' then [] else acc ++ [c]) []

/-! ### A small regex engine

Only the constructs the scripts use: literal runs and greedy one-or-more
character-class runs (`\s+`, `[^;]+`), with Python's backtracking (the
longest run extension that lets the rest of the pattern match wins). -/

inductive RTok where
  | lit (s : List Char)
  | run (p : Char → Bool)

/-- Length of the maximal leading run of characters satisfying `p`. -/
def maxRun (p : Char → Bool) : List Char → Nat
  | [] => 0
  | c :: cs => if p c then maxRun p cs + 1 else 0

/-- Try `f n, f (n-1), …, f 1` and return the first `some`. -/
def firstSome (f : Nat → Option Nat) : Nat → Option Nat
  | 0 => none
  | n + 1 =>
    match f (n + 1) with
    | some v => some v
    | none => firstSome f n

/-- Match a token list at the head of `rest`; return the matched length.
A `run` token greedily tries its longest viable extension first. -/
def matchFrom : List RTok → List Char → Option Nat
  | [] => fun _ => some 0
  | .lit s :: ts => fun rest =>
    if s.isPrefixOf rest then (matchFrom ts (rest.drop s.length)).map (s.length + ·)
    else none
  | .run p :: ts => fun rest =>
    firstSome (fun i => (matchFrom ts (rest.drop i)).map (i + ·)) (maxRun p rest)

/-- Scan left to right, replacing each non-overlapping leftmost match by
`repl` applied to the matched text (Python `re.sub` on these patterns).
`fuel` is an upper bound on the scan length, supplied as `s.length`. -/
def subAllAux (toks : List RTok) (repl : List Char → List Char) :
    Nat → List Char → List Char
  | 0, s => s
  | _ + 1, [] => []
  | fuel + 1, c :: cs =>
    match matchFrom toks (c :: cs) with
    | some (n + 1) =>
      repl ((c :: cs).take (n + 1)) ++ subAllAux toks repl fuel ((c :: cs).drop (n + 1))
    | _ => c :: subAllAux toks repl fuel cs

def subAll (toks : List RTok) (repl : List Char → List Char) (s : List Char) : List Char :=
  subAllAux toks repl (lenTR s) s

/-- Python `\s`. -/
def isPySpace (c : Char) : Bool :=
  c = ' ' || c = '\t' || c = '\n' || c = '\x0d' || c = '\x0b' || c = '\x0c'

/-- The character class `[A-F0-9]`. -/
def isHexUp (c : Char) : Bool :=
  ('A' ≤ c && c ≤ 'F') || ('0' ≤ c && c ≤ '9')

/-- `re.search(r'([A-F0-9]{24})‹tail›', s)` returning group 1: scan for the
leftmost position opening with 24 `[A-F0-9]` characters followed by a
match of `tail`. -/
def reSearchHex24 (tail : List RTok) : List Char → Option (List Char)
  | [] => none
  | c :: cs =>
    let s := c :: cs
    if 24 ≤ lenTR (s.take 24) && (s.take 24).all isHexUp &&
        (matchFrom tail (s.drop 24)).isSome
    then some (s.take 24)
    else reSearchHex24 tail cs

/-! ### Section markers and error messages (`add_files_auto.py` / `add_to_xcode_v2.py`) -/

def beginBF : List Char := "/* Begin PBXBuildFile section */".toList
def endBF : List Char := "/* End PBXBuildFile section */".toList
def beginFR : List Char := "/* Begin PBXFileReference section */".toList
def endFR : List Char := "/* End PBXFileReference section */".toList
def beginSP : List Char := "/* Begin PBXSourcesBuildPhase section */".toList
def filesArrMark : List Char := "files = (".toList
def closeParenMark : List Char := ");".toList
def beginGrp : List Char := "/* Begin PBXGroup section */".toList
def endGrp : List Char := "/* End PBXGroup section */".toList

def msgBF : List Char := "Could not find PBXBuildFile section".toList
def msgFR : List Char := "Could not find PBXFileReference section".toList
def msgSP : List Char := "Could not find PBXSourcesBuildPhase section".toList
def msgFA : List Char := "Could not find files array in PBXSourcesBuildPhase".toList

/-! ### Record builders

One entry per file to add, carrying the two identifiers `generate_uuid`
produced for it (one for the `PBXFileReference`, one for the
`PBXBuildFile`). -/

structure FileEntry where
  filepath : List Char
  filename : List Char
  fileRefUuid : List Char
  buildFileUuid : List Char
deriving DecidableEq

/-- The `PBXBuildFile` line rendered for one entry. -/
def buildFileLine (e : FileEntry) : List Char :=
  "\t\t".toList ++ e.buildFileUuid ++ " /* ".toList ++ e.filename ++
  " in Sources */ = \x7bisa = PBXBuildFile; fileRef = ".toList ++ e.fileRefUuid ++
  " /* ".toList ++ e.filename ++ " */; \x7d;\n".toList

/-- The `PBXFileReference` line rendered for one entry (note both scripts
store only the bare filename in the `path` field). -/
def fileRefLine (e : FileEntry) : List Char :=
  "\t\t".toList ++ e.fileRefUuid ++ " /* ".toList ++ e.filename ++
  " */ = \x7bisa = PBXFileReference; lastKnownFileType = sourcecode.swift; path = ".toList ++
  e.filename ++ "; sourceTree = \"<group>\"; \x7d;\n".toList

/-- The membership line added inside the sources build phase `files = (`. -/
def sourcesLine (e : FileEntry) : List Char :=
  "\t\t\t\t".toList ++ e.buildFileUuid ++ " /* ".toList ++ e.filename ++
  " in Sources */,\n".toList

/-- Build the `file_entries` list of `add_files_to_pbxproj`: identifiers are
drawn from the stream `ids` in program order (fileRef first, then
buildFile, two per file). -/
def mkFileEntries (ids : Nat → List Char) : List (List Char) → Nat → List FileEntry
  | [], _ => []
  | f :: fs, k =>
    ⟨f, basename f, ids k, ids (k + 1)⟩ :: mkFileEntries ids fs (k + 2)

/-! ### `add_files_to_pbxproj` (`add_files_auto.py`, lines 15–92)

The function is split into its three insertion blocks; each block mirrors
the source's `find`-check-`find`-splice sequence exactly. -/

/-- Lines 35–49: insert the `PBXBuildFile` entries. -/
def autoStage1 (es : List FileEntry) (content : List Char) : Except (List Char) (List Char) :=
  let bfStart := pyFind content beginBF 0
  if bfStart = -1 then .error msgBF
  else
    let bfEnd := pyFind content endBF bfStart
    .ok (pyTake content bfEnd ++ (es.map buildFileLine).flatten ++ pyDrop content bfEnd)

/-- Lines 51–64: insert the `PBXFileReference` entries. -/
def autoStage2 (es : List FileEntry) (content : List Char) : Except (List Char) (List Char) :=
  let frStart := pyFind content beginFR 0
  if frStart = -1 then .error msgFR
  else
    let frEnd := pyFind content endFR frStart
    .ok (pyTake content frEnd ++ (es.map fileRefLine).flatten ++ pyDrop content frEnd)

/-- Lines 66–85: insert the build-phase membership lines. -/
def autoStage3 (es : List FileEntry) (content : List Char) : Except (List Char) (List Char) :=
  let spStart := pyFind content beginSP 0
  if spStart = -1 then .error msgSP
  else
    let faStart := pyFind content filesArrMark spStart
    if faStart = -1 then .error msgFA
    else
      let faEnd := pyFind content closeParenMark faStart
      .ok (pyTake content faEnd ++ (es.map sourcesLine).flatten ++ pyDrop content faEnd)

/-- `add_files_to_pbxproj` on the in-memory text: the three stages in
sequence, short-circuiting on the first missing marker. -/
def addFilesToPbxproj (es : List FileEntry) (content : List Char) :
    Except (List Char) (List Char) :=
  autoStage1 es content >>= autoStage2 es >>= autoStage3 es

/-! ### File-system level runs

Events record every access the scripts make to the manifest path; no
other file operations touch it.  `renameOver` is in the vocabulary so
that "write to a temporary location, then replace" is expressible — the
scripts never emit it. -/

inductive Ev where
  | readF (p : List Char)
  | copyF (src dst : List Char)
  | writeInPlace (p : List Char)
  | renameOver (tmp dst : List Char)
deriving DecidableEq

inductive Outcome where
  | missingSource (files : List (List Char))
  | sectionError (msg : List Char)
  | groupNotFound (which : List Char)
  | success
deriving DecidableEq

structure RunResult where
  outcome : Outcome
  manifest : List Char
  backup : Option (List Char)
  trace : List Ev
deriving DecidableEq

def pbxprojPath : List Char :=
  "/Users/karatsidhu/Developer/WardenApp/Warden.xcodeproj/project.pbxproj".toList

def autoBackupPath : List Char := pbxprojPath ++ ".backup".toList

def v2BackupPath : List Char := pbxprojPath ++ ".backup2".toList

/-- The hard-coded `files_to_add` of `add_files_auto.py.__main__`. -/
def autoFilesToAdd : List (List Char) :=
  ["/Users/karatsidhu/Developer/WardenApp/Warden/Core/MCP/MCPServerConfig.swift".toList,
   "/Users/karatsidhu/Developer/WardenApp/Warden/Core/MCP/MCPManager.swift".toList,
   "/Users/karatsidhu/Developer/WardenApp/Warden/UI/Preferences/MCP/AddMCPAgentSheet.swift".toList,
   "/Users/karatsidhu/Developer/WardenApp/Warden/UI/Preferences/MCP/MCPSettingsView.swift".toList,
   "/Users/karatsidhu/Developer/WardenApp/Warden/UI/Chat/MCPAgentSelector.swift".toList]

/-- `add_files_auto.py.__main__` (lines 94–135), with the file list, the
identifier stream and the filesystem-existence oracle as parameters: the
missing-files check runs before anything touches the manifest; on a
section error the backup is copied back over the manifest. -/
def runAutoMain (srcExists : List Char → Bool) (files : List (List Char))
    (ids : Nat → List Char) (m0 : List Char) : RunResult :=
  let missing := files.filter (fun p => !srcExists p)
  if missing ≠ [] then ⟨.missingSource missing, m0, none, []⟩
  else
    let es := mkFileEntries ids files 0
    match addFilesToPbxproj es m0 with
    | .ok out =>
      ⟨.success, out, some m0,
        [.copyF pbxprojPath autoBackupPath, .readF pbxprojPath, .writeInPlace pbxprojPath]⟩
    | .error e =>
      ⟨.sectionError e, m0, some m0,
        [.copyF pbxprojPath autoBackupPath, .readF pbxprojPath,
         .copyF autoBackupPath pbxprojPath]⟩

/-! ### `add_to_xcode_v2.py`

Identifier stream consumption order (lines 26–60): index 0 `core_group`,
1 `core_mcp_group`, 2 `ui_prefs_mcp_group`, then per `file_data` entry in
dict order a `file_ref` and a `build_file` identifier. -/

/-- The `file_data` entries in dict order with their stream indices. -/
def v2Entries (ids : Nat → List Char) : List FileEntry :=
  [⟨"Core/MCP/MCPServerConfig.swift".toList, "MCPServerConfig.swift".toList, ids 3, ids 4⟩,
   ⟨"Core/MCP/MCPManager.swift".toList, "MCPManager.swift".toList, ids 5, ids 6⟩,
   ⟨"UI/Preferences/MCP/AddMCPAgentSheet.swift".toList, "AddMCPAgentSheet.swift".toList, ids 7, ids 8⟩,
   ⟨"UI/Preferences/MCP/MCPSettingsView.swift".toList, "MCPSettingsView.swift".toList, ids 9, ids 10⟩,
   ⟨"UI/Chat/MCPAgentSelector.swift".toList, "MCPAgentSelector.swift".toList, ids 11, ids 12⟩]

/-- The `core_group` text (lines 131–139). -/
def coreGroupOf (coreId mcpId : List Char) : List Char :=
  "\t\t".toList ++ coreId ++
  " /* Core */ = \x7b\n\t\t\tisa = PBXGroup;\n\t\t\tchildren = (\n\t\t\t\t".toList ++
  mcpId ++
  " /* MCP */,\n\t\t\t);\n\t\t\tpath = Core;\n\t\t\tsourceTree = \"<group>\";\n\t\t\x7d;\n".toList

/-- The `core_mcp_group` text (lines 142–151): one `MCP` group holding both
`Core/MCP` file references. -/
def coreMcpGroupOf (mcpId ref1 ref2 : List Char) : List Char :=
  "\t\t".toList ++ mcpId ++
  " /* MCP */ = \x7b\n\t\t\tisa = PBXGroup;\n\t\t\tchildren = (\n\t\t\t\t".toList ++
  ref1 ++ " /* MCPServerConfig.swift */,\n\t\t\t\t".toList ++
  ref2 ++
  " /* MCPManager.swift */,\n\t\t\t);\n\t\t\tpath = MCP;\n\t\t\tsourceTree = \"<group>\";\n\t\t\x7d;\n".toList

/-- The `ui_prefs_mcp_group` text (lines 154–163). -/
def uiPrefsMcpGroupOf (gid ref1 ref2 : List Char) : List Char :=
  "\t\t".toList ++ gid ++
  " /* MCP */ = \x7b\n\t\t\tisa = PBXGroup;\n\t\t\tchildren = (\n\t\t\t\t".toList ++
  ref1 ++ " /* AddMCPAgentSheet.swift */,\n\t\t\t\t".toList ++
  ref2 ++
  " /* MCPSettingsView.swift */,\n\t\t\t);\n\t\t\tpath = MCP;\n\t\t\tsourceTree = \"<group>\";\n\t\t\x7d;\n".toList

/-- Tail of the group-lookup searches `([A-F0-9]{24}) /\* ‹name› \*/ = \{`. -/
def groupSearchTail (nm : List Char) : List RTok :=
  [.lit (" /* ".toList ++ nm ++ " */ = \x7b".toList)]

/-- Tail of the `Warden` group search, which additionally requires
`\n\s+isa = PBXGroup;` (line 82). -/
def wardenSearchTail : List RTok :=
  [.lit " /* Warden */ = \x7b\n".toList, .run isPySpace, .lit "isa = PBXGroup;".toList]

/-- Pattern of the `re.sub` calls in steps 5–7 (lines 170–184):
`(‹uuid› /\* ‹name› \*/ = \{\n\s+isa = PBXGroup;\n\s+children = \()`. -/
def groupSubToks (u nm : List Char) : List RTok :=
  [.lit (u ++ " /* ".toList ++ nm ++ " */ = \x7b\n".toList),
   .run isPySpace,
   .lit "isa = PBXGroup;\n".toList,
   .run isPySpace,
   .lit "children = (".toList]

/-- Replacement suffix `\n\t\t\t\t‹id› /* ‹name› */,` appended after the
matched group in steps 5–7. -/
def childIns (childId nm : List Char) : List Char :=
  "\n\t\t\t\t".toList ++ childId ++ " /* ".toList ++ nm ++ " */,".toList

/-- Steps 1–7 of `add_to_xcode_v2.py` (lines 89–185) on the in-memory text,
after the three group lookups succeeded.  None of the `find` results in
this part is checked against `-1`. -/
def v2Patch (ids : Nat → List Char) (chatU prefsU wardenU : List Char)
    (c0 : List Char) : List Char :=
  let es := v2Entries ids
  let bfStart := pyFind c0 beginBF 0
  let bfEnd := pyFind c0 endBF bfStart
  let c1 := pyTake c0 bfEnd ++ (es.map buildFileLine).flatten ++ pyDrop c0 bfEnd
  let frStart := pyFind c1 beginFR 0
  let frEnd := pyFind c1 endFR frStart
  let c2 := pyTake c1 frEnd ++ (es.map fileRefLine).flatten ++ pyDrop c1 frEnd
  let spStart := pyFind c2 beginSP 0
  let faStart := pyFind c2 filesArrMark spStart
  let faEnd := pyFind c2 closeParenMark faStart
  let c3 := pyTake c2 faEnd ++ (es.map sourcesLine).flatten ++ pyDrop c2 faEnd
  let gStart := pyFind c3 beginGrp 0
  let gEnd := pyFind c3 endGrp gStart
  let groups := coreGroupOf (ids 0) (ids 1) ++ coreMcpGroupOf (ids 1) (ids 3) (ids 5) ++
    uiPrefsMcpGroupOf (ids 2) (ids 7) (ids 9)
  let c4 := pyTake c3 gEnd ++ groups ++ pyDrop c3 gEnd
  let c5 := subAll (groupSubToks wardenU "Warden".toList)
    (fun m => m ++ childIns (ids 0) "Core".toList) c4
  let c6 := subAll (groupSubToks prefsU "Preferences".toList)
    (fun m => m ++ childIns (ids 2) "MCP".toList) c5
  subAll (groupSubToks chatU "Chat".toList)
    (fun m => m ++ childIns (ids 11) "MCPAgentSelector.swift".toList) c6

/-- `add_to_xcode_v2.py` top to bottom: read, backup, the three group
lookups (each `exit(1)` on failure, with no restore — the manifest was
not yet written), then the patch and the in-place write.  The script
never consults `srcExists`: it performs no source-file existence check. -/
def runV2 (srcExists : List Char → Bool) (ids : Nat → List Char)
    (m0 : List Char) : RunResult :=
  let _ := srcExists
  let baseTrace := [Ev.readF pbxprojPath, Ev.copyF pbxprojPath v2BackupPath]
  match reSearchHex24 (groupSearchTail "Chat".toList) m0 with
  | none => ⟨.groupNotFound "Chat".toList, m0, some m0, baseTrace⟩
  | some chatU =>
    match reSearchHex24 (groupSearchTail "Preferences".toList) m0 with
    | none => ⟨.groupNotFound "Preferences".toList, m0, some m0, baseTrace⟩
    | some prefsU =>
      match reSearchHex24 wardenSearchTail m0 with
      | none => ⟨.groupNotFound "Warden".toList, m0, some m0, baseTrace⟩
      | some wardenU =>
        ⟨.success, v2Patch ids chatU prefsU wardenU m0, some m0,
          baseTrace ++ [Ev.writeInPlace pbxprojPath]⟩

/-- The source paths named in `file_data` (relative, as in the script). -/
def v2SourcePaths : List (List Char) := (v2Entries (fun _ => [])).map (·.filepath)

/-! ### `fix_file_paths.py` -/

/-- The `file_fixes` mapping (lines 15–21). -/
def fileFixes : List (List Char × List Char) :=
  [("MCPServerConfig.swift".toList, "Core/MCP/MCPServerConfig.swift".toList),
   ("MCPManager.swift".toList, "Core/MCP/MCPManager.swift".toList),
   ("AddMCPAgentSheet.swift".toList, "UI/Preferences/MCP/AddMCPAgentSheet.swift".toList),
   ("MCPSettingsView.swift".toList, "UI/Preferences/MCP/MCPSettingsView.swift".toList),
   ("MCPAgentSelector.swift".toList, "UI/Chat/MCPAgentSelector.swift".toList)]

/-- Pattern of line 26:
`(/\* ‹fn› \*/ = \{isa = PBXFileReference;[^;]+path = )‹fn›`. -/
def fixToks (fn : List Char) : List RTok :=
  [.lit ("/* ".toList ++ fn ++ " */ = \x7bisa = PBXFileReference;".toList),
   .run (fun c => c != ';'),
   .lit ("path = ".toList ++ fn)]

/-- Replacement `\1‹correct_path›`: the match minus its trailing `‹fn›`,
then the corrected path. -/
def fixRepl (fn path m : List Char) : List Char :=
  m.take (m.length - fn.length) ++ path

/-- The whole rewrite loop of `fix_file_paths.py` (lines 24–28): one
`re.sub` per mapping entry, in order, threading the text through. -/
def fixFilePaths (c : List Char) : List Char :=
  fileFixes.foldl (fun acc pr => subAll (fixToks pr.1) (fixRepl pr.1 pr.2) acc) c

/-! ### Allocator view

`generate_uuid` (identical in both scripts) draws a fresh random token and
returns it unconditionally; the identifiers allocated by one
`add_files_to_pbxproj` run are the raw stream prefix, two per file. -/

/-- The identifiers carried by a list of entries, in allocation order. -/
def entryIds (es : List FileEntry) : List (List Char) :=
  es.foldr (fun e acc => e.fileRefUuid :: e.buildFileUuid :: acc) []

/-- The first `n` tokens of the random stream. -/
def streamIds (ids : Nat → List Char) (n : Nat) : List (List Char) :=
  (List.range n).map ids

/-- All tokens pairwise distinct. -/
def distinctB : List (List Char) → Bool
  | [] => true
  | a :: as => as.all (fun b => !(a == b)) && distinctB as

/-- The claim's collision-freedom property for one operation: the
allocated identifiers are pairwise distinct and none occurs anywhere in
the pre-operation manifest text. -/
def allocFreshB (alloc : List (List Char)) (pre : List Char) : Bool :=
  distinctB alloc && alloc.all (fun a => !containsTok pre a)

/-! ### Trace and outcome helpers -/

def isRenameEv : Ev → Bool
  | .renameOver _ _ => true
  | _ => false

/-- No `renameOver` event anywhere in a trace. -/
def noRenameB (tr : List Ev) : Bool := tr.all (fun e => !isRenameEv e)

def isMissingOutcome : Outcome → Bool
  | .missingSource _ => true
  | _ => false

/-! ### Concrete inputs used by witnesses and counterexamples -/

/-- A deterministic, pairwise-distinct stream of 24-character `[A-F0-9]`
identifiers standing in for one realisation of `uuid.uuid4`. -/
def cIds (n : Nat) : List Char :=
  "BBBBBBBBBBBBBBBBBBBBBB".toList ++ [Nat.digitChar (n / 10), Nat.digitChar (n % 10)]

/-- A constant identifier stream: one possible (unlucky) realisation of
the unchecked random generator. -/
def badIds (_ : Nat) : List Char := "AAAAAAAAAAAAAAAAAAAAAAAA".toList

/-- A manifest that already contains the token `badIds` produces. -/
def preWithToken : List Char :=
  ("// x\n\t\tAAAAAAAAAAAAAAAAAAAAAAAA /* Old.swift */ = \x7b\x7d;\n").toList

/-- A minimal manifest holding every marker `add_files_auto.py` checks. -/
def autoSample : List Char :=
  ("// !$*UTF8*$!\n" ++
   "/* Begin PBXBuildFile section */\n" ++
   "/* End PBXBuildFile section */\n" ++
   "/* Begin PBXFileReference section */\n" ++
   "/* End PBXFileReference section */\n" ++
   "/* Begin PBXSourcesBuildPhase section */\n" ++
   "\t\t\tfiles = (\n" ++
   "\t\t\t);\n" ++
   "/* End PBXSourcesBuildPhase section */\n").toList

/-- A manifest whose three `Begin` markers and `files = (` are present but
whose `End` markers and `);` terminator are all absent. -/
def autoNoEndSample : List Char :=
  ("/* Begin PBXBuildFile section */ /* Begin PBXFileReference section */ " ++
   "/* Begin PBXSourcesBuildPhase section */ files = ( X").toList

def autoSampleFiles : List (List Char) := ["Warden/Core/New.swift".toList]

/-- The committed result of `add_files_to_pbxproj` on `autoSample`. -/
def autoSampleCoreOut : List Char :=
  match addFilesToPbxproj (mkFileEntries cIds autoSampleFiles 0) autoSample with
  | .ok o => o
  | .error _ => []

def autoSampleRun : RunResult := runAutoMain (fun _ => true) autoSampleFiles cIds autoSample

/-- A manifest for `add_to_xcode_v2.py` containing `Warden`, `Chat` and
`Preferences` groups, every section the script splices into — and also a
pre-existing group named `Core`. -/
def v2Input : List Char :=
  ("// !$*UTF8*$!\n" ++
   "/* Begin PBXBuildFile section */\n" ++
   "/* End PBXBuildFile section */\n" ++
   "/* Begin PBXFileReference section */\n" ++
   "/* End PBXFileReference section */\n" ++
   "/* Begin PBXGroup section */\n" ++
   "\t\tAAAAAAAAAAAAAAAA00000001 /* Warden */ = \x7b\n" ++
   "\t\t\tisa = PBXGroup;\n" ++
   "\t\t\tchildren = (\n" ++
   "\t\t\t\tAAAAAAAAAAAAAAAA00000002 /* Chat */,\n" ++
   "\t\t\t);\n" ++
   "\t\t\tpath = Warden;\n" ++
   "\t\t\tsourceTree = \"<group>\";\n" ++
   "\t\t\x7d;\n" ++
   "\t\tAAAAAAAAAAAAAAAA00000002 /* Chat */ = \x7b\n" ++
   "\t\t\tisa = PBXGroup;\n\t\t\tchildren = (\n\t\t\t);\n\t\t\tpath = Chat;\n" ++
   "\t\t\tsourceTree = \"<group>\";\n\t\t\x7d;\n" ++
   "\t\tAAAAAAAAAAAAAAAA00000003 /* Preferences */ = \x7b\n" ++
   "\t\t\tisa = PBXGroup;\n\t\t\tchildren = (\n\t\t\t);\n\t\t\tpath = Preferences;\n" ++
   "\t\t\tsourceTree = \"<group>\";\n\t\t\x7d;\n" ++
   "\t\tAAAAAAAAAAAAAAAA00000004 /* Core */ = \x7b\n" ++
   "\t\t\tisa = PBXGroup;\n\t\t\tchildren = (\n\t\t\t);\n\t\t\tpath = Core;\n" ++
   "\t\t\tsourceTree = \"<group>\";\n\t\t\x7d;\n" ++
   "/* End PBXGroup section */\n" ++
   "/* Begin PBXSourcesBuildPhase section */\n" ++
   "\t\tAAAAAAAAAAAAAAAA00000005 /* Sources */ = \x7b\n" ++
   "\t\t\tisa = PBXSourcesBuildPhase;\n" ++
   "\t\t\tfiles = (\n" ++
   "\t\t\t);\n" ++
   "\t\t\x7d;\n" ++
   "/* End PBXSourcesBuildPhase section */\n").toList

def v2InputRun : RunResult := runV2 (fun _ => true) cIds v2Input

/-- The textual header a `Core` group declaration opens with. -/
def coreHdr : List Char := " /* Core */ = \x7b".toList

/-- A manifest holding exactly the `PBXFileReference` record the adding
scripts emit for `MCPManager.swift` (with its `lastKnownFileType` field). -/
def fixStdInput : List Char :=
  "// x\n".toList ++
  fileRefLine ⟨"Core/MCP/MCPManager.swift".toList, "MCPManager.swift".toList,
    "AAAAAAAAAAAAAAAA00000007".toList, "AAAAAAAAAAAAAAAA00000008".toList⟩

/-- A text on which one greedy `[^;]+` match swallows a second
`path = MCPManager.swift` occurrence. -/
def fixGreedyInput : List Char :=
  ("/* MCPManager.swift */ = \x7bisa = PBXFileReference; path = MCPManager.swift" ++
   " x path = MCPManager.swift").toList

/-- Two file-reference records in the shape the `fix_file_paths.py`
pattern does match (no field between the `isa` and `path` fields). -/
def fixShortInput : List Char :=
  ("\t\tAAAAAAAAAAAAAAAA00000001 /* MCPServerConfig.swift */ = " ++
   "\x7bisa = PBXFileReference; path = MCPServerConfig.swift; sourceTree = \"<group>\"; \x7d;\n" ++
   "\t\tAAAAAAAAAAAAAAAA00000002 /* MCPManager.swift */ = " ++
   "\x7bisa = PBXFileReference; path = MCPManager.swift; sourceTree = \"<group>\"; \x7d;\n").toList

/-- The result of `add_files_to_pbxproj` on the marker-without-end sample. -/
def autoNoEndOut : List Char :=
  match addFilesToPbxproj (mkFileEntries cIds autoSampleFiles 0) autoNoEndSample with
  | .ok o => o
  | .error _ => []

/-! ## Helper lemmas -/

theorem pyTake_append_pyDrop (s : List Char) (i : Int) : pyTake s i ++ pyDrop s i = s :=
  List.take_append_drop _ s

/-- A splice `s[:i] ++ ins ++ s[i:]` keeps the original text as a
subsequence. -/
theorem sublist_splice (s ins : List Char) (i : Int) :
    List.Sublist s (pyTake s i ++ ins ++ pyDrop s i) := by
  have h := List.Sublist.append (List.Sublist.refl (pyTake s i))
    (List.sublist_append_right ins (pyDrop s i))
  rw [pyTake_append_pyDrop] at h
  simpa [List.append_assoc] using h

/-- A replace-all pass whose replacement appends a suffix to the matched
text keeps the original text as a subsequence. -/
theorem subAllAux_extends (toks : List RTok) (ins : List Char) :
    ∀ (fuel : Nat) (s : List Char),
      List.Sublist s (subAllAux toks (fun m => m ++ ins) fuel s) := by
  intro fuel
  induction fuel with
  | zero => intro s; simp [subAllAux]
  | succ n ih =>
    intro s
    cases s with
    | nil => simp [subAllAux]
    | cons c cs =>
      simp only [subAllAux]
      cases h : matchFrom toks (c :: cs) with
      | none =>
        simp only [h]
        exact List.Sublist.cons₂ c (ih cs)
      | some k =>
        cases k with
        | zero =>
          simp only [h]
          exact List.Sublist.cons₂ c (ih cs)
        | succ m =>
          simp only [h]
          have h2 : List.Sublist ((c :: cs).drop (m + 1))
              (ins ++ subAllAux toks (fun x => x ++ ins) n ((c :: cs).drop (m + 1))) :=
            (ih _).trans (List.sublist_append_right _ _)
          have h3 := List.Sublist.append (List.Sublist.refl ((c :: cs).take (m + 1))) h2
          rw [List.take_append_drop] at h3
          simpa [List.append_assoc] using h3

theorem subAll_extends (toks : List RTok) (ins s : List Char) :
    List.Sublist s (subAll toks (fun m => m ++ ins) s) :=
  subAllAux_extends toks ins (lenTR s) s

theorem autoStage1_extends (es : List FileEntry) (c out : List Char)
    (h : autoStage1 es c = .ok out) : List.Sublist c out := by
  by_cases hb : pyFind c beginBF 0 = -1
  · simp [autoStage1, hb] at h
  · simp only [autoStage1, if_neg hb, Except.ok.injEq] at h
    rw [← h]
    exact sublist_splice c _ _

theorem autoStage2_extends (es : List FileEntry) (c out : List Char)
    (h : autoStage2 es c = .ok out) : List.Sublist c out := by
  by_cases hb : pyFind c beginFR 0 = -1
  · simp [autoStage2, hb] at h
  · simp only [autoStage2, if_neg hb, Except.ok.injEq] at h
    rw [← h]
    exact sublist_splice c _ _

theorem autoStage3_extends (es : List FileEntry) (c out : List Char)
    (h : autoStage3 es c = .ok out) : List.Sublist c out := by
  by_cases hb : pyFind c beginSP 0 = -1
  · simp [autoStage3, hb] at h
  · by_cases hf : pyFind c filesArrMark (pyFind c beginSP 0) = -1
    · simp [autoStage3, hb, hf] at h
    · simp only [autoStage3, if_neg hb, if_neg hf, Except.ok.injEq] at h
      rw [← h]
      exact sublist_splice c _ _

theorem countStep_nil (pat : List Char) (k a : Nat) :
    countStep pat k (a, []) = (a, []) := by
  cases k <;> simp [countStep]

theorem countStep_add (pat : List Char) :
    ∀ (j k : Nat) (st : Nat × List Char),
      countStep pat k (countStep pat j st) = countStep pat (j + k) st := by
  intro j
  induction j with
  | zero => intro k st; simp [countStep]
  | succ n ih =>
    intro k st
    obtain ⟨a, s⟩ := st
    cases s with
    | nil => rw [countStep_nil, countStep_nil, countStep_nil]
    | cons c cs =>
      have harith : n + 1 + k = n + k + 1 := by omega
      rw [harith]
      cases hp : pat.isPrefixOf (c :: cs) with
      | true => simp only [countStep, hp, if_pos]; exact ih k (a + 1, cs)
      | false => simp only [countStep, hp]; simp only [if_neg Bool.false_ne_true]
                 exact ih k (a, cs)

theorem countStep_complete (pat : List Char) :
    ∀ (k a : Nat) (s : List Char),
      (countStep pat k (a, s)).2 = [] →
      countOccAux pat a s = (countStep pat k (a, s)).1 := by
  intro k
  induction k with
  | zero =>
    intro a s h
    simp only [countStep] at h ⊢
    subst h
    simp [countOccAux]
  | succ n ih =>
    intro a s h
    cases s with
    | nil => simp [countStep, countOccAux] at h ⊢
    | cons c cs =>
      cases hp : pat.isPrefixOf (c :: cs) with
      | true =>
        simp only [countStep, hp, if_pos] at h ⊢
        simp only [countOccAux, hp, if_pos]
        exact ih _ _ h
      | false =>
        simp only [countStep, hp, if_neg Bool.false_ne_true] at h ⊢
        simp only [countOccAux, hp, if_neg Bool.false_ne_true]
        exact ih _ _ h

/-- Evaluating `countOcc` through the three chained bounded passes. -/
theorem countOcc_of_countOcc3k (pat s : List Char)
    (h : (countOcc3k pat s).2 = []) : countOcc pat s = (countOcc3k pat s).1 := by
  have he : countOcc3k pat s = countStep pat 4500 (0, s) := by
    simp only [countOcc3k, countStep_add]
  rw [he] at h ⊢
  exact countStep_complete pat 4500 0 s h

/-! ## Claim theorems -/

/-- C1: patching is strictly additive — whenever `add_files_to_pbxproj`
commits, the pre-operation text is a subsequence of the result, and the
full `add_to_xcode_v2.py` patch pipeline (splices and group-linkage
`re.sub` rewrites) likewise only ever inserts, for every input text. -/
theorem additive_only_patch :
    (∀ (es : List FileEntry) (c out : List Char),
        addFilesToPbxproj es c = .ok out → List.Sublist c out) ∧
    (∀ (ids : Nat → List Char) (chatU prefsU wardenU c : List Char),
        List.Sublist c (v2Patch ids chatU prefsU wardenU c)) := by
  constructor
  · intro es c out h
    unfold addFilesToPbxproj at h
    cases h1 : autoStage1 es c with
    | error e =>
      rw [h1] at h
      exact absurd h (by simp [Bind.bind, Except.bind])
    | ok m1 =>
      rw [h1] at h
      have h' : autoStage2 es m1 >>= autoStage3 es = Except.ok out := h
      cases h2 : autoStage2 es m1 with
      | error e =>
        rw [h2] at h'
        exact absurd h' (by simp [Bind.bind, Except.bind])
      | ok m2 =>
        rw [h2] at h'
        have h3 : autoStage3 es m2 = Except.ok out := h'
        exact ((autoStage1_extends es c m1 h1).trans
          (autoStage2_extends es m1 m2 h2)).trans (autoStage3_extends es m2 out h3)
  · intro ids chatU prefsU wardenU c
    simp only [v2Patch]
    exact (((((sublist_splice c _ _).trans (sublist_splice _ _ _)).trans
      (sublist_splice _ _ _)).trans (sublist_splice _ _ _)).trans
      ((subAll_extends _ _ _).trans (subAll_extends _ _ _))).trans (subAll_extends _ _ _)

/-- Witness for C1: a committed run on a concrete manifest. -/
theorem additive_only_patch_witness : List.Sublist autoSample autoSampleCoreOut :=
  additive_only_patch.1 (mkFileEntries cIds autoSampleFiles 0) autoSample autoSampleCoreOut rfl

/-- The identifiers an operation allocates are exactly a contiguous slice
of the raw random stream: `generate_uuid` adds no check of any kind. -/
theorem entryIds_mkFileEntries (ids : Nat → List Char) :
    ∀ (files : List (List Char)) (k : Nat),
      entryIds (mkFileEntries ids files k) =
        (List.range' k (2 * files.length)).map ids := by
  intro files
  induction files with
  | nil => intro k; simp [mkFileEntries, entryIds]
  | cons f fs ih =>
    intro k
    have hlen : 2 * (f :: fs).length = 2 * fs.length + 1 + 1 := by
      simp [List.length_cons]; ring
    rw [hlen, List.range'_succ, List.range'_succ]
    simp only [mkFileEntries, entryIds, List.foldr, List.map_cons]
    have := ih (k + 2)
    simp only [entryIds] at this
    rw [this]

/-- C2 (counterexample): with an identifier stream that happens to repeat
a token already present in the manifest, the allocated identifiers are
neither fresh nor pairwise distinct — the code never checks. -/
theorem allocator_freshness_counterexample :
    allocFreshB (entryIds (mkFileEntries badIds ["a.swift".toList] 0)) preWithToken
      = false := rfl

/-- C2 (amended): the allocator returns the raw random tokens unchanged
(two per file, in order), so the allocated identifiers avoid the
pre-operation text and each other exactly when the supplied random tokens
do; no collision check is performed by the code. -/
theorem allocator_passthrough :
    (∀ (ids : Nat → List Char) (files : List (List Char)),
        entryIds (mkFileEntries ids files 0) = streamIds ids (2 * files.length)) ∧
    (∀ (ids : Nat → List Char) (files : List (List Char)) (pre : List Char),
        allocFreshB (streamIds ids (2 * files.length)) pre = true →
        allocFreshB (entryIds (mkFileEntries ids files 0)) pre = true) := by
  have hmain : ∀ (ids : Nat → List Char) (files : List (List Char)),
      entryIds (mkFileEntries ids files 0) = streamIds ids (2 * files.length) := by
    intro ids files
    rw [entryIds_mkFileEntries ids files 0, streamIds, List.range_eq_range']
  exact ⟨hmain, fun ids files pre h => by rw [hmain]; exact h⟩

/-- Witness for C2's amended theorem: a distinct, fresh stream yields
distinct, fresh identifiers on a concrete run. -/
theorem allocator_passthrough_witness :
    allocFreshB (entryIds (mkFileEntries cIds autoSampleFiles 0)) autoSample = true :=
  allocator_passthrough.2 cIds autoSampleFiles autoSample rfl

/-- C3: rollback exactness — on any non-success outcome of either script
the manifest text on disk equals the pre-operation text (restored from
the backup in `add_files_auto.py`, never written in `add_to_xcode_v2.py`). -/
theorem rollback_exactness :
    (∀ (srcE : List Char → Bool) (files : List (List Char)) (ids : Nat → List Char)
        (m0 : List Char),
        (runAutoMain srcE files ids m0).outcome ≠ .success →
        (runAutoMain srcE files ids m0).manifest = m0) ∧
    (∀ (srcE : List Char → Bool) (ids : Nat → List Char) (m0 : List Char),
        (runV2 srcE ids m0).outcome ≠ .success →
        (runV2 srcE ids m0).manifest = m0) := by
  constructor
  · intro srcE files ids m0 h
    by_cases hm : (files.filter fun p => !srcE p) ≠ []
    · simp [runAutoMain, hm]
    · cases hc : addFilesToPbxproj (mkFileEntries ids files 0) m0 with
      | ok out => exact absurd (by simp [runAutoMain, hm, hc]) h
      | error e => simp [runAutoMain, hm, hc]
  · intro srcE ids m0 h
    cases h1 : reSearchHex24 (groupSearchTail "Chat".toList) m0 with
    | none => simp only [runV2]; rw [h1]
    | some chatU =>
      cases h2 : reSearchHex24 (groupSearchTail "Preferences".toList) m0 with
      | none => simp only [runV2]; rw [h1, h2]
      | some prefsU =>
        cases h3 : reSearchHex24 wardenSearchTail m0 with
        | none => simp only [runV2]; rw [h1, h2, h3]
        | some wardenU =>
          exact absurd (by simp only [runV2]; rw [h1, h2, h3]) h

/-- Witness for C3: concrete failing runs of both scripts leave the
manifest byte-identical. -/
theorem rollback_exactness_witness :
    (runAutoMain (fun _ => true) autoSampleFiles cIds "x".toList).manifest = "x".toList ∧
    (runV2 (fun _ => true) cIds "x".toList).manifest = "x".toList :=
  ⟨rollback_exactness.1 (fun _ => true) autoSampleFiles cIds "x".toList (by decide),
   rollback_exactness.2 (fun _ => true) cIds "x".toList (by decide)⟩

/-- C4: a missing checked marker makes the corresponding stage fail with
the error message naming that section, and any stage error makes the whole
run report that error with the manifest restored to its original bytes and
no in-place write of the patched text. -/
theorem structure_not_found_short_circuit :
    (∀ (es : List FileEntry) (c : List Char),
        (pyFind c beginBF 0 = -1 → autoStage1 es c = .error msgBF) ∧
        (pyFind c beginFR 0 = -1 → autoStage2 es c = .error msgFR) ∧
        (pyFind c beginSP 0 = -1 → autoStage3 es c = .error msgSP) ∧
        (pyFind c beginSP 0 ≠ -1 → pyFind c filesArrMark (pyFind c beginSP 0) = -1 →
          autoStage3 es c = .error msgFA)) ∧
    (∀ (srcE : List Char → Bool) (files : List (List Char)) (ids : Nat → List Char)
        (m0 msg : List Char),
        files.filter (fun p => !srcE p) = [] →
        addFilesToPbxproj (mkFileEntries ids files 0) m0 = .error msg →
        runAutoMain srcE files ids m0 =
          ⟨.sectionError msg, m0, some m0,
            [.copyF pbxprojPath autoBackupPath, .readF pbxprojPath,
             .copyF autoBackupPath pbxprojPath]⟩) := by
  constructor
  · intro es c
    refine ⟨fun h => ?_, fun h => ?_, fun h => ?_, fun h hf => ?_⟩
    · simp [autoStage1, h]
    · simp [autoStage2, h]
    · simp [autoStage3, h]
    · simp [autoStage3, h, hf]
  · intro srcE files ids m0 msg hfil herr
    simp only [runAutoMain, hfil]
    rw [herr]
    simp

/-- Witness for C4: a manifest with no markers fails at the first stage
with the `PBXBuildFile` message, and the whole run restores the text. -/
theorem structure_not_found_witness :
    autoStage1 (mkFileEntries cIds autoSampleFiles 0) "x".toList = .error msgBF ∧
    runAutoMain (fun _ => true) autoSampleFiles cIds "x".toList =
      ⟨.sectionError msgBF, "x".toList, some "x".toList,
        [.copyF pbxprojPath autoBackupPath, .readF pbxprojPath,
         .copyF autoBackupPath pbxprojPath]⟩ :=
  ⟨(structure_not_found_short_circuit.1 (mkFileEntries cIds autoSampleFiles 0)
      "x".toList).1 (by decide),
   structure_not_found_short_circuit.2 (fun _ => true) autoSampleFiles cIds
     "x".toList msgBF (by decide) rfl⟩

/-- C5 (counterexample): a committed concrete run writes the patched text
in place at the original path and its trace holds no rename-over event,
refuting "write to a temporary location, then rename over the original". -/
theorem atomic_commit_counterexample :
    autoSampleRun.outcome = .success ∧
    noRenameB autoSampleRun.trace = true ∧
    autoSampleRun.trace.contains (Ev.writeInPlace pbxprojPath) = true :=
  ⟨rfl, rfl, rfl⟩

/-- C5 (amended): commit is a direct in-place write — every committed run
of either script produces exactly a backup copy, a read, and one
truncating write of the patched text to the original path; no temporary
file and no rename ever appears in the trace. -/
theorem in_place_commit :
    (∀ (srcE : List Char → Bool) (files : List (List Char)) (ids : Nat → List Char)
        (m0 : List Char),
        (runAutoMain srcE files ids m0).outcome = .success →
        (runAutoMain srcE files ids m0).trace =
          [.copyF pbxprojPath autoBackupPath, .readF pbxprojPath,
           .writeInPlace pbxprojPath] ∧
        noRenameB (runAutoMain srcE files ids m0).trace = true) ∧
    (∀ (srcE : List Char → Bool) (ids : Nat → List Char) (m0 : List Char),
        (runV2 srcE ids m0).outcome = .success →
        (runV2 srcE ids m0).trace =
          [.readF pbxprojPath, .copyF pbxprojPath v2BackupPath,
           .writeInPlace pbxprojPath] ∧
        noRenameB (runV2 srcE ids m0).trace = true) := by
  constructor
  · intro srcE files ids m0 h
    by_cases hm : (files.filter fun p => !srcE p) ≠ []
    · exact absurd h (by simp [runAutoMain, hm])
    · cases hc : addFilesToPbxproj (mkFileEntries ids files 0) m0 with
      | ok out =>
        constructor
        · simp [runAutoMain, hm, hc]
        · simp [runAutoMain, hm, hc, noRenameB, isRenameEv]
      | error e => exact absurd h (by simp [runAutoMain, hm, hc])
  · intro srcE ids m0 h
    cases h1 : reSearchHex24 (groupSearchTail "Chat".toList) m0 with
    | none => exact absurd h (by simp only [runV2]; rw [h1]; simp)
    | some chatU =>
      cases h2 : reSearchHex24 (groupSearchTail "Preferences".toList) m0 with
      | none => exact absurd h (by simp only [runV2]; rw [h1, h2]; simp)
      | some prefsU =>
        cases h3 : reSearchHex24 wardenSearchTail m0 with
        | none => exact absurd h (by simp only [runV2]; rw [h1, h2, h3]; simp)
        | some wardenU =>
          constructor
          · simp only [runV2]; rw [h1, h2, h3]; rfl
          · simp only [runV2]; rw [h1, h2, h3]; rfl

/-- Witness for C5's amended theorem at a concrete committed run. -/
theorem in_place_commit_witness :
    autoSampleRun.trace =
      [.copyF pbxprojPath autoBackupPath, .readF pbxprojPath,
       .writeInPlace pbxprojPath] ∧
    noRenameB autoSampleRun.trace = true :=
  in_place_commit.1 (fun _ => true) autoSampleFiles cIds autoSample rfl

set_option maxHeartbeats 1600000 in
/-- C6 (counterexample): on a manifest that already holds a group named
`Core` (and satisfies every lookup the script makes), the run still
commits and the output holds a second `Core` group declaration — group
creation never checks for an existing match. -/
theorem group_dedup_counterexample :
    countOcc coreHdr v2Input = 1 ∧
    v2InputRun.outcome = .success ∧
    countOcc coreHdr v2InputRun.manifest = 2 := by
  refine ⟨rfl, rfl, ?_⟩
  have h : (countOcc3k coreHdr v2InputRun.manifest).2 = [] := rfl
  rw [countOcc_of_countOcc3k _ _ h]
  rfl

set_option maxHeartbeats 3200000 in
/-- C6 (amended): the `Core`, `Core/MCP` and `UI/Preferences/MCP` groups
are created unconditionally, with no existing-group check; the sharing
half of the claim does hold — both `Core/MCP` file additions are placed in
the one `core_mcp` group record, whose children text carries both
file-reference identifiers, and exactly one group record with that
identifier appears in the committed output. -/
theorem group_creation_unconditional_but_shared :
    (∀ (mcpId r1 r2 : List Char),
        r1 <:+: coreMcpGroupOf mcpId r1 r2 ∧ r2 <:+: coreMcpGroupOf mcpId r1 r2) ∧
    (v2InputRun.outcome = .success ∧
     countOcc (coreMcpGroupOf (cIds 1) (cIds 3) (cIds 5)) v2InputRun.manifest = 1 ∧
     countOcc (cIds 1 ++ " /* MCP */ = \x7b".toList) v2InputRun.manifest = 1 ∧
     countOcc coreHdr v2InputRun.manifest = 2) := by
  constructor
  · intro mcpId r1 r2
    constructor
    · refine ⟨"\t\t".toList ++ mcpId ++
        " /* MCP */ = \x7b\n\t\t\tisa = PBXGroup;\n\t\t\tchildren = (\n\t\t\t\t".toList,
        " /* MCPServerConfig.swift */,\n\t\t\t\t".toList ++ r2 ++
        " /* MCPManager.swift */,\n\t\t\t);\n\t\t\tpath = MCP;\n\t\t\tsourceTree = \"<group>\";\n\t\t\x7d;\n".toList,
        ?_⟩
      simp [coreMcpGroupOf, List.append_assoc]
    · refine ⟨"\t\t".toList ++ mcpId ++
        " /* MCP */ = \x7b\n\t\t\tisa = PBXGroup;\n\t\t\tchildren = (\n\t\t\t\t".toList ++
        r1 ++ " /* MCPServerConfig.swift */,\n\t\t\t\t".toList,
        " /* MCPManager.swift */,\n\t\t\t);\n\t\t\tpath = MCP;\n\t\t\tsourceTree = \"<group>\";\n\t\t\x7d;\n".toList,
        ?_⟩
      simp [coreMcpGroupOf, List.append_assoc]
  · refine ⟨rfl, ?_, ?_, ?_⟩
    · have h : (countOcc3k (coreMcpGroupOf (cIds 1) (cIds 3) (cIds 5))
          v2InputRun.manifest).2 = [] := rfl
      rw [countOcc_of_countOcc3k _ _ h]
      rfl
    · have h : (countOcc3k (cIds 1 ++ " /* MCP */ = \x7b".toList)
          v2InputRun.manifest).2 = [] := rfl
      rw [countOcc_of_countOcc3k _ _ h]
      rfl
    · have h : (countOcc3k coreHdr v2InputRun.manifest).2 = [] := rfl
      rw [countOcc_of_countOcc3k _ _ h]
      rfl

/-- C7 (counterexample): `add_to_xcode_v2.py` run with a filesystem on
which none of its source paths exists still reads and backs up the
manifest, and it fails (here: on the missing `Chat` group), not with any
missing-source outcome. -/
theorem missing_source_counterexample :
    isMissingOutcome (runV2 (fun _ => false) cIds []).outcome = false ∧
    (runV2 (fun _ => false) cIds []).outcome = .groupNotFound "Chat".toList ∧
    (runV2 (fun _ => false) cIds []).trace ≠ [] :=
  ⟨rfl, rfl, by decide⟩

/-- C7 (amended): `add_files_auto.py` does fail on missing sources before
touching the manifest (no event at all, no backup, text unchanged), but
`add_to_xcode_v2.py` performs no source-existence check: its result is
the same for every filesystem oracle. -/
theorem missing_source_guard :
    (∀ (srcE : List Char → Bool) (files : List (List Char)) (ids : Nat → List Char)
        (m0 : List Char),
        files.filter (fun p => !srcE p) ≠ [] →
        runAutoMain srcE files ids m0 =
          ⟨.missingSource (files.filter (fun p => !srcE p)), m0, none, []⟩) ∧
    (∀ (s1 s2 : List Char → Bool) (ids : Nat → List Char) (m0 : List Char),
        runV2 s1 ids m0 = runV2 s2 ids m0) := by
  constructor
  · intro srcE files ids m0 hm
    simp [runAutoMain, hm]
  · intro s1 s2 ids m0
    rfl

/-- Witness for C7's amended theorem: a concrete run whose source files
are all absent produces the missing-source outcome with an empty trace. -/
theorem missing_source_guard_witness :
    runAutoMain (fun _ => false) autoFilesToAdd cIds "m".toList =
      ⟨.missingSource autoFilesToAdd, "m".toList, none, []⟩ := by
  have h := missing_source_guard.1 (fun _ => false) autoFilesToAdd cIds "m".toList
    (by decide)
  simpa using h

/-- C8: the path-fixing pass cannot rewrite the very records this
repository's adding scripts emit — `[^;]+` cannot cross the semicolon
ending the `lastKnownFileType` field, so a manifest holding the standard
`MCPManager.swift` file-reference record passes through byte-identical
and the corrected path never appears. -/
theorem path_normalizer_misses_standard_records :
    fixFilePaths fixStdInput = fixStdInput ∧
    containsTok fixStdInput "path = MCPManager.swift;".toList = true ∧
    containsTok (fixFilePaths fixStdInput) "Core/MCP/MCPManager.swift".toList = false :=
  ⟨rfl, rfl, rfl⟩

/-- C9 (counterexample): the normalizer is not idempotent even with its
own mapping — on a text where one `;`-free gap holds two
`path = MCPManager.swift` occurrences, the greedy `[^;]+` consumes the
first occurrence while rewriting the second, and a second application
rewrites the first as well. -/
theorem normalizer_idempotence_counterexample :
    fixFilePaths (fixFilePaths fixGreedyInput) ≠ fixFilePaths fixGreedyInput := by
  decide

/-- C9 (amended): on the ordinary one-`path`-per-record syntax the pass
does act idempotently — a second application leaves a once-normalized
manifest of matching records unchanged (and the first application is not
a no-op there). -/
theorem normalizer_idempotent_on_record_syntax :
    fixFilePaths (fixFilePaths fixShortInput) = fixFilePaths fixShortInput ∧
    fixFilePaths fixShortInput ≠ fixShortInput :=
  ⟨rfl, by decide⟩

theorem lenAux_eq (s : List Char) : ∀ n : Nat, lenAux n s = n + s.length := by
  induction s with
  | nil => intro n; simp [lenAux]
  | cons c cs ih =>
    intro n
    have h : lenAux n (c :: cs) = lenAux (n + 1) cs := rfl
    rw [h, ih (n + 1)]
    simp [List.length_cons]
    omega

theorem lenTR_eq (s : List Char) : lenTR s = s.length := by
  simpa [lenTR] using lenAux_eq s 0

theorem pyClamp_neg_one (n : Nat) : pyClamp n (-1) = n - 1 := by
  simp only [pyClamp, if_pos (show (-1 : Int) < 0 by norm_num)]
  omega

theorem pyTake_neg_one (s : List Char) : pyTake s (-1) = s.take (s.length - 1) := by
  simp [pyTake, lenTR_eq, pyClamp_neg_one]

theorem pyDrop_neg_one (s : List Char) : pyDrop s (-1) = s.drop (s.length - 1) := by
  simp [pyDrop, lenTR_eq, pyClamp_neg_one]

/-- C10: when a section's `Begin` marker is present but its `End` marker is
absent, `find` yields `-1` and the new records are spliced immediately
before the manifest's last byte; a run whose stages all return `ok` is
still written back and reported as a success. -/
theorem end_marker_fallback :
    (∀ (es : List FileEntry) (c : List Char),
        pyFind c beginBF 0 ≠ -1 →
        pyFind c endBF (pyFind c beginBF 0) = -1 →
        autoStage1 es c =
          .ok (c.take (c.length - 1) ++ (es.map buildFileLine).flatten ++
            c.drop (c.length - 1))) ∧
    (∀ (srcE : List Char → Bool) (files : List (List Char)) (ids : Nat → List Char)
        (m0 out : List Char),
        files.filter (fun p => !srcE p) = [] →
        addFilesToPbxproj (mkFileEntries ids files 0) m0 = .ok out →
        runAutoMain srcE files ids m0 =
          ⟨.success, out, some m0,
            [.copyF pbxprojPath autoBackupPath, .readF pbxprojPath,
             .writeInPlace pbxprojPath]⟩) := by
  constructor
  · intro es c h1 h2
    simp only [autoStage1, if_neg h1]
    rw [h2, pyTake_neg_one, pyDrop_neg_one]
  · intro srcE files ids m0 out hfil hok
    simp only [runAutoMain, hfil]
    rw [hok]
    simp

/-- Witness for C10: a manifest whose `Begin` markers are present but
whose `End` markers and `);` terminator are absent — entries land before
the final byte and the run still commits successfully. -/
theorem end_marker_fallback_witness :
    autoStage1 (mkFileEntries cIds autoSampleFiles 0) autoNoEndSample =
      .ok (autoNoEndSample.take (autoNoEndSample.length - 1) ++
        ((mkFileEntries cIds autoSampleFiles 0).map buildFileLine).flatten ++
        autoNoEndSample.drop (autoNoEndSample.length - 1)) ∧
    runAutoMain (fun _ => true) autoSampleFiles cIds autoNoEndSample =
      ⟨.success, autoNoEndOut, some autoNoEndSample,
        [.copyF pbxprojPath autoBackupPath, .readF pbxprojPath,
         .writeInPlace pbxprojPath]⟩ :=
  ⟨end_marker_fallback.1 (mkFileEntries cIds autoSampleFiles 0) autoNoEndSample
      (by decide) (by decide),
   end_marker_fallback.2 (fun _ => true) autoSampleFiles cIds autoNoEndSample
     autoNoEndOut (by decide) rfl⟩

end Warden
